import Mathlib

/-!
Shallow embedding of the chatbot-testing-framework repository
(src/chatbot/mock_chatbot.py and src/chatbot/intent_classifier.py).

Python strings are modelled as lists of code points (`List Nat`); the
case mappings `str.lower` / `str.upper` are the ASCII case maps, matching
the behaviour of the source on the ASCII texts it is designed for.
-/

namespace Chatbot

/-- A text is a list of code points, the model of a Python `str`. -/
abbrev Txt := List Nat

/-- Convert a Lean string literal to its code-point list. -/
def s2t (s : String) : Txt := s.data.map Char.toNat

/-- ASCII lower-casing of one code point (model of `str.lower` per char). -/
def lowerCp (n : Nat) : Nat := if 65 ≤ n ∧ n ≤ 90 then n + 32 else n

/-- ASCII upper-casing of one code point (model of `str.upper` per char). -/
def upperCp (n : Nat) : Nat := if 97 ≤ n ∧ n ≤ 122 then n - 32 else n

/-- Model of Python `str.lower`. -/
def pyLower (s : Txt) : Txt := s.map lowerCp

/-- Model of Python `str.upper`. -/
def pyUpper (s : Txt) : Txt := s.map upperCp

/-- The ASCII whitespace characters stripped by Python `str.strip`. -/
def isSpaceCp (n : Nat) : Bool :=
  n = 32 || n = 9 || n = 10 || n = 11 || n = 12 || n = 13

/-- Model of Python `str.strip` (no argument): drop whitespace both ends. -/
def pyStrip (s : Txt) : Txt :=
  ((s.dropWhile isSpaceCp).reverse.dropWhile isSpaceCp).reverse

/-- Model of Python `s.startswith(p)`. -/
def startsWith (p s : Txt) : Bool := List.isPrefixOf p s

/-- Model of Python `needle in haystack` (substring containment). -/
def containsSub (needle : Txt) : Txt → Bool
  | [] => needle.isEmpty
  | c :: t => List.isPrefixOf needle (c :: t) || containsSub needle t

/-- Model of Python `s.split(needle)[0]` for a non-empty needle:
the part of `s` before the first occurrence of `needle` (all of `s`
when `needle` does not occur). -/
def beforeFirst (needle : Txt) : Txt → Txt
  | [] => []
  | c :: t => if List.isPrefixOf needle (c :: t) then [] else c :: beforeFirst needle t

/-- Helper for `wordCount`: the Bool records whether we are inside a word. -/
def wordCountAux : Bool → Txt → Nat
  | _, [] => 0
  | inWord, c :: t =>
    if isSpaceCp c then wordCountAux false t
    else (if inWord then 0 else 1) + wordCountAux true t

/-- Model of Python `len(s.split())`: number of whitespace-separated words. -/
def wordCount (s : Txt) : Nat := wordCountAux false s

/-- The closed intent set of the chatbot (`mock_chatbot.py`). -/
inductive Intent where
  | greeting
  | goodbye
  | thanks
  | help
  | booking
  | status
  | cancel
  | question
  | weather
  | name_introduction
  | name_query
  | booking_time
  | unknown
deriving DecidableEq

/-- The code point of the apostrophe character. -/
def apos : Nat := 39

/-- The text of the contraction of "i am" (i, apostrophe, m). -/
def imTxt : Txt := s2t "i" ++ apos :: s2t "m"

/-- The phrase list `self.intents["name_query"]`:
a three-phrase list: "my name", the question asking for the name, "who am i". -/
def nameQueryPhrases : List Txt :=
  [s2t "my name", s2t "what" ++ apos :: s2t "s my name", s2t "who am i"]

/-- The keyword list `self.intents["weather"]`. -/
def weatherKeywords : List Txt :=
  [s2t "weather", s2t "forecast", s2t "temperature", s2t "rain"]

/-- The keyword list `self.intents["booking"]`. -/
def bookingKeywords : List Txt :=
  [s2t "book", s2t "schedule", s2t "appointment", s2t "meeting"]

/-- The keyword list `self.intents["status"]`. -/
def statusKeywords : List Txt := [s2t "status", s2t "update", s2t "progress"]

/-- The keyword list `self.intents["cancel"]`. -/
def cancelKeywords : List Txt := [s2t "cancel", s2t "stop", s2t "abort"]

/-- Rule 1 guard of `get_intent` (name storage), line 59 of the source. -/
def nameIntroCond (m : Txt) : Bool :=
  containsSub (s2t "my name is") m ||
  (containsSub (s2t "i am") m && decide (wordCount m ≤ 3)) ||
  containsSub imTxt m ||
  containsSub (s2t "call me") m

/-- Rule 2 guard of `get_intent` (name query), line 63 of the source. -/
def nameQueryCond (m : Txt) : Bool :=
  nameQueryPhrases.any (fun p => containsSub p m)

/-- Rule 3 guard of `get_intent` (thanks), line 68 of the source. -/
def thanksCond (m : Txt) : Bool :=
  containsSub (s2t "thank") m ||
  (containsSub (s2t "thanks") m &&
    !containsSub (s2t "help") (beforeFirst (s2t "thanks") m)) ||
  containsSub (s2t "appreciate") m

/-- Rule 4 guard of `get_intent` (help), line 72 of the source. -/
def helpCond (m : Txt) : Bool :=
  (containsSub (s2t "help") m || containsSub (s2t "assist") m ||
    containsSub (s2t "support") m) && !containsSub (s2t "thank") m

/-- First goodbye guard, line 76 of the source. -/
def goodbyeCond1 (m : Txt) : Bool :=
  startsWith (s2t "good") m &&
    (containsSub (s2t "bye") m || decide (m = s2t "goodbye"))

/-- Second goodbye guard, line 78 of the source. -/
def goodbyeCond2 (m : Txt) : Bool :=
  [s2t "bye", s2t "farewell", s2t "see you"].any (fun w => containsSub w m)

/-- Weather guard, line 82 of the source. -/
def weatherCond (m : Txt) : Bool :=
  weatherKeywords.any (fun k => containsSub k m)

/-- Booking guard, line 86 of the source. -/
def bookingCond (m : Txt) : Bool :=
  bookingKeywords.any (fun k => containsSub k m)

/-- First greeting guard, line 90 of the source. -/
def greetingCond1 (m : Txt) : Bool :=
  startsWith (s2t "hi") m || startsWith (s2t "hello") m || startsWith (s2t "hey") m

/-- Second greeting guard, line 92 of the source. -/
def greetingCond2 (m : Txt) : Bool :=
  startsWith (s2t "good") m &&
    (containsSub (s2t "morning") m || containsSub (s2t "evening") m ||
      containsSub (s2t "afternoon") m)

/-- Question guard, line 96 of the source. -/
def questionCond (m : Txt) : Bool :=
  [s2t "what", s2t "how", s2t "why", s2t "when", s2t "where", s2t "who"].any
    (fun q => startsWith q m)

/-- Status guard (first iteration of the loop at line 100). -/
def statusCond (m : Txt) : Bool := statusKeywords.any (fun k => containsSub k m)

/-- Cancel guard (second iteration of the loop at line 100). -/
def cancelCond (m : Txt) : Bool := cancelKeywords.any (fun k => containsSub k m)

/-- The rule cascade of `MockChatbot.get_intent` applied to the already
lower-cased and stripped message. -/
def getIntentCore (m : Txt) : Intent :=
  if nameIntroCond m then .name_introduction
  else if nameQueryCond m then .name_query
  else if thanksCond m then .thanks
  else if helpCond m then .help
  else if goodbyeCond1 m then .goodbye
  else if goodbyeCond2 m then .goodbye
  else if weatherCond m then .weather
  else if bookingCond m then .booking
  else if greetingCond1 m then .greeting
  else if greetingCond2 m then .greeting
  else if questionCond m then .question
  else if statusCond m then .status
  else if cancelCond m then .cancel
  else .unknown

/-- `MockChatbot.get_intent`: lower-case and strip the message
(`message.lower().strip()`), then run the rule cascade. -/
def get_intent (message : Txt) : Intent :=
  getIntentCore (pyStrip (pyLower message))

/-- An ASCII `\w` word character: letter, digit or underscore,
the model of the regex class used by `extract_name`. -/
def wordCp (n : Nat) : Bool :=
  (48 ≤ n && n ≤ 57) || (65 ≤ n && n ≤ 90) || (97 ≤ n && n ≤ 122) || n = 95

/-- Try to match the regex `pre(\w+)` at the start of `s`: the literal
prefix must be present and be followed by at least one word character;
the capture is the maximal word-character run. -/
def matchCaptureAt (pre s : Txt) : Option Txt :=
  if List.isPrefixOf pre s then
    let w := (s.drop pre.length).takeWhile wordCp
    if w.isEmpty then none else some w
  else none

/-- Model of `re.search` for a pattern `pre(\w+)`: scan left to right for
the first position where the pattern matches, returning the capture. -/
def searchCapture (pre : Txt) : Txt → Option Txt
  | [] => matchCaptureAt pre []
  | c :: t =>
    match matchCaptureAt pre (c :: t) with
    | some w => some w
    | none => searchCapture pre t

/-- Model of Python `str.capitalize`: upper-case the first character,
lower-case the rest. -/
def capitalizeCp : Txt → Txt
  | [] => []
  | c :: t => upperCp c :: t.map lowerCp

/-- Pattern `r"my name is (\w+)"` of `extract_name` (its literal part). -/
def patMyNameIs : Txt := s2t "my name is "

/-- Pattern `r"i am (\w+)"` of `extract_name` (its literal part). -/
def patIAm : Txt := s2t "i am "

/-- Third regex pattern of `extract_name`, the contraction form (its literal part). -/
def patIm : Txt := imTxt ++ [32]

/-- Pattern `r"call me (\w+)"` of `extract_name` (its literal part). -/
def patCallMe : Txt := s2t "call me "

/-- The ordered pattern list of `MockChatbot.extract_name`. -/
def namePatterns : List Txt := [patMyNameIs, patIAm, patIm, patCallMe]

/-- Try the patterns in order on the (already lower-cased) message,
returning the first successful capture. -/
def firstCapture : List Txt → Txt → Option Txt
  | [], _ => none
  | p :: ps, ml =>
    match searchCapture p ml with
    | some w => some w
    | none => firstCapture ps ml

/-- `MockChatbot.extract_name`: search the four patterns in order on
`message.lower()`; return the first capture, capitalized. -/
def extract_name (message : Txt) : Option Txt :=
  (firstCapture namePatterns (pyLower message)).map capitalizeCp

/-- Turn role: user or assistant. -/
inductive Role where
  | user
  | assistant
deriving DecidableEq

/-- One record of `self.conversation_history`:
`{"role": ..., "content": ..., "intent": ...}`. -/
structure Turn where
  role : Role
  content : Txt
  intent : Intent
deriving DecidableEq

/-- A value stored in `self.context`: the source stores strings
(`user_name`, `booking_time`) and booleans (`booking_started`). -/
inductive CtxVal where
  | txt (s : Txt)
  | flag (b : Bool)
deriving DecidableEq

/-- The context dictionary, as an insertion-ordered association list. -/
abbrev Ctx := List (Txt × CtxVal)

/-- Dictionary lookup: `ctx.get(k)`. -/
def ctxGet : Ctx → Txt → Option CtxVal
  | [], _ => none
  | (k2, v2) :: t, k => if k2 = k then some v2 else ctxGet t k

/-- Dictionary assignment `ctx[k] = v`: overwrite in place when the key
exists, append otherwise (Python dict insertion-order semantics). -/
def ctxSet : Ctx → Txt → CtxVal → Ctx
  | [], k, v => [(k, v)]
  | (k2, v2) :: t, k, v =>
    if k2 = k then (k2, v) :: t else (k2, v2) :: ctxSet t k v

/-- Python truthiness of `self.context.get("booking_started", False)`:
absent is false; a stored bool is itself; a stored string is truthy
when non-empty. -/
def truthy : Option CtxVal → Bool
  | none => false
  | some (.flag b) => b
  | some (.txt s) => !s.isEmpty

/-- Rendering of a context value inside an f-string
(the f-string interpolation of the stored user name). -/
def ctxValRender : CtxVal → Txt
  | .txt s => s
  | .flag true => s2t "True"
  | .flag false => s2t "False"

/-- State of a `MockChatbot` instance: history and context. -/
structure BotState where
  conversation_history : List Turn
  context : Ctx
deriving DecidableEq

/-- The state built by `MockChatbot.__init__`: empty history, empty context. -/
def initState : BotState := ⟨[], []⟩

/-- The `time_indicators` list of `generate_response` (lines 133-137). -/
def time_indicators : List Txt :=
  [s2t "tomorrow", s2t "today", s2t "monday", s2t "tuesday", s2t "wednesday",
   s2t "thursday", s2t "friday", s2t "saturday", s2t "sunday", s2t "pm", s2t "am",
   s2t "morning", s2t "afternoon", s2t "evening", s2t "at ", s2t " at",
   s2t "1pm", s2t "2pm", s2t "3pm", s2t "4pm", s2t "5pm", s2t "6pm", s2t "7pm",
   s2t "8pm", s2t "9pm", s2t "10pm", s2t "11pm", s2t "12pm",
   s2t "1am", s2t "2am", s2t "3am", s2t "4am", s2t "5am", s2t "6am", s2t "7am",
   s2t "8am", s2t "9am", s2t "10am", s2t "11am", s2t "12am"]

/-- The `is_question` check of `generate_response` (line 139): the
lower-cased (unstripped) message starts with a question word. -/
def isQuestionStart (ml : Txt) : Bool :=
  [s2t "what", s2t "how", s2t "why", s2t "when", s2t "where", s2t "who"].any
    (fun q => startsWith q ml)

/-- The intent assigned to a message by `generate_response` (lines 131-146):
override to `booking_time` when booking is in progress, the message
contains a time indicator and is not question-initial; otherwise resolve. -/
def resolvedIntent (st : BotState) (message : Txt) : Intent :=
  let ml := pyLower message
  let in_booking_mode := truthy (ctxGet st.context (s2t "booking_started"))
  let is_question := isQuestionStart ml
  let looks_like_time :=
    in_booking_mode && time_indicators.any (fun w => containsSub w ml) && !is_question
  if looks_like_time then .booking_time else get_intent message

/-- Canned reply for the booking-time confirmation. -/
def confirmReply : Txt :=
  s2t "Great! Your booking is confirmed. You" ++ apos ::
    s2t "ll receive a confirmation email shortly."

/-- Canned reply prompting for a booking time (fresh booking). -/
def scheduleReply : Txt :=
  s2t "I" ++ apos :: s2t "d be happy to help you book. When would you like to schedule?"

/-- Canned reply when a booking is already in progress. -/
def specifyReply : Txt :=
  s2t "Please specify when you" ++ apos :: s2t "d like to book (e.g., " ++
    apos :: s2t "tomorrow at 2pm" ++ apos :: s2t ")"

/-- The canned weather reply. -/
def weatherReply : Txt := s2t "The weather today is sunny with a high of 25°C."

/-- The fallback reply for `unknown`. -/
def unknownReply : Txt :=
  s2t "I" ++ apos :: s2t "m not sure I understand. Could you rephrase that?"

/-- The `self.responses` table with `unknown` as the default:
`self.responses.get(intent, self.responses["unknown"])`. -/
def responsesGet : Intent → Txt
  | .greeting => s2t "Hello! How can I help you today?"
  | .goodbye => s2t "Goodbye! Have a great day!"
  | .thanks => s2t "You" ++ apos :: s2t "re welcome! Happy to help!"
  | .help => s2t "I can help you with bookings, questions, and general inquiries. What do you need?"
  | .booking => scheduleReply
  | .status => s2t "Let me check the status for you."
  | .cancel => s2t "Your request has been cancelled."
  | .question => s2t "That" ++ apos :: s2t "s a great question. Let me help you with that."
  | .weather => weatherReply
  | _ => unknownReply

/-- The intent-dispatch block of `generate_response` (lines 155-191):
given the assigned intent, produce the reply and the updated context. -/
def dispatch (st : BotState) (message : Txt) (intent : Intent) : Txt × Ctx :=
  if intent = .name_introduction then
    match extract_name message with
    | some name =>
        (s2t "Nice to meet you, " ++ name ++ s2t "! How can I help you today?",
         ctxSet st.context (s2t "user_name") (.txt name))
    | none => (s2t "Nice to meet you! What" ++ apos :: s2t "s your name?", st.context)
  else if intent = .name_query then
    match ctxGet st.context (s2t "user_name") with
    | some v => (s2t "Your name is " ++ ctxValRender v ++ s2t "!", st.context)
    | none =>
        (s2t "I don" ++ apos :: s2t "t know your name yet. What should I call you?",
         st.context)
  else if intent = .booking_time then
    (confirmReply,
     ctxSet (ctxSet st.context (s2t "booking_time") (.txt message))
       (s2t "booking_started") (.flag false))
  else if intent = .booking then
    if !truthy (ctxGet st.context (s2t "booking_started")) then
      (scheduleReply, ctxSet st.context (s2t "booking_started") (.flag true))
    else (specifyReply, st.context)
  else if intent = .weather then (weatherReply, st.context)
  else (responsesGet intent, st.context)

/-- `MockChatbot.generate_response`: assign the intent, dispatch, and
append the user and assistant turn records. The source appends the user
record before computing the reply; since the reply never reads the
history, appending both records at the end is equivalent. -/
def generate_response (st : BotState) (message : Txt) : Txt × BotState :=
  let intent := resolvedIntent st message
  let rc := dispatch st message intent
  (rc.1,
   ⟨st.conversation_history ++
      [⟨.user, message, intent⟩, ⟨.assistant, rc.1, intent⟩],
    rc.2⟩)

/-- `MockChatbot.reset`: empty history and context. -/
def reset (_ : BotState) : BotState := ⟨[], []⟩

/-- Process a list of utterances on a fresh session. -/
def processAll (msgs : List Txt) : BotState :=
  msgs.foldl (fun st m => (generate_response st m).2) initState

/-- Number of positions where prediction and ground truth agree
(the `sum(...)` of `calculate_accuracy`). -/
def countEq (predictions ground_truth : List Txt) : Nat :=
  (List.zip predictions ground_truth).countP (fun x => decide (x.1 = x.2))

/-- `IntentClassifier.calculate_accuracy`: raises `ValueError` on a
length mismatch (modelled as `Except.error`), returns `0.0` on empty
input, and the fraction of agreeing positions otherwise. -/
def calculate_accuracy (predictions ground_truth : List Txt) : Except Txt ℚ :=
  if predictions.length ≠ ground_truth.length then
    .error (s2t "Predictions and ground truth must have same length")
  else if predictions.length = 0 then .ok 0
  else .ok ((countEq predictions ground_truth : ℚ) / (predictions.length : ℚ))

/-- Inner-dictionary update of `get_confusion_matrix`:
`matrix[true][pred] += 1`, inserting `0` first when absent. -/
def bumpInner : List (Txt × Nat) → Txt → List (Txt × Nat)
  | [], p => [(p, 1)]
  | (k, c) :: t, p => if k = p then (k, c + 1) :: t else (k, c) :: bumpInner t p

/-- Outer-dictionary update of `get_confusion_matrix`: route the pair
to the row of the true label, creating the row when absent. -/
def bumpOuter : List (Txt × List (Txt × Nat)) → Txt → Txt → List (Txt × List (Txt × Nat))
  | [], t, p => [(t, [(p, 1)])]
  | (k, inner) :: rest, t, p =>
    if k = t then (k, bumpInner inner p) :: rest
    else (k, inner) :: bumpOuter rest t p

/-- `IntentClassifier.get_confusion_matrix`: fold the `zip` of the two
sequences through the nested dictionary updates. -/
def get_confusion_matrix (predictions ground_truth : List Txt) :
    List (Txt × List (Txt × Nat)) :=
  (List.zip predictions ground_truth).foldl (fun m x => bumpOuter m x.2 x.1) []

/-- `IntentClassifier.calculate_precision_recall`: true/false positives
and false negatives over the `zip` of the sequences; each ratio is `0.0`
when its denominator is zero. -/
def calculate_precision_recall (predictions ground_truth : List Txt)
    (intent : Txt) : ℚ × ℚ :=
  let z := List.zip predictions ground_truth
  let tp := z.countP (fun x => decide (x.1 = intent) && decide (x.2 = intent))
  let fp := z.countP (fun x => decide (x.1 = intent) && decide (x.2 ≠ intent))
  let fn := z.countP (fun x => decide (x.1 ≠ intent) && decide (x.2 = intent))
  let prcsn := if tp + fp > 0 then (tp : ℚ) / ((tp : ℚ) + (fp : ℚ)) else 0
  let recl := if tp + fn > 0 then (tp : ℚ) / ((tp : ℚ) + (fn : ℚ)) else 0
  (prcsn, recl)

/-- The closed intent set of the specification, as a list. -/
def closedIntentSet : List Intent :=
  [.greeting, .goodbye, .thanks, .help, .booking, .status, .cancel, .question,
   .weather, .name_introduction, .name_query, .booking_time, .unknown]

/-- Disjunction of every rule guard of the cascade: true exactly when
some rule of `get_intent` matches the prepared message. -/
def someRuleFires (m : Txt) : Bool :=
  nameIntroCond m || nameQueryCond m || thanksCond m || helpCond m ||
  goodbyeCond1 m || goodbyeCond2 m || weatherCond m || bookingCond m ||
  greetingCond1 m || greetingCond2 m || questionCond m || statusCond m ||
  cancelCond m

/-- Well-formedness of a conversation history: turns come in pairs, a
user turn followed by an assistant turn carrying the same intent. -/
def historyOk : List Turn → Bool
  | [] => true
  | [_] => false
  | u :: a :: rest =>
    decide (u.role = .user) && decide (a.role = .assistant) &&
    decide (u.intent = a.intent) && historyOk rest

/-- The three context keys the session ever writes. -/
def allowedCtxKeys : List Txt :=
  [s2t "user_name", s2t "booking_started", s2t "booking_time"]

/-- Apply a list of dictionary assignments in order. -/
def setMany (c : Ctx) (us : List (Txt × CtxVal)) : Ctx :=
  us.foldl (fun c kv => ctxSet c kv.1 kv.2) c

lemma lowerCp_upperCp (n : Nat) : lowerCp (upperCp n) = lowerCp n := by
  simp only [lowerCp, upperCp]
  repeat' split
  all_goals omega

lemma lowerCp_lowerCp (n : Nat) : lowerCp (lowerCp n) = lowerCp n := by
  simp only [lowerCp]
  repeat' split
  all_goals omega

lemma pyLower_pyUpper (s : Txt) : pyLower (pyUpper s) = pyLower s := by
  simp only [pyLower, pyUpper, List.map_map]
  exact List.map_congr_left fun n _ => lowerCp_upperCp n

lemma pyLower_pyLower (s : Txt) : pyLower (pyLower s) = pyLower s := by
  simp only [pyLower, List.map_map]
  exact List.map_congr_left fun n _ => lowerCp_lowerCp n

/-- C1: for every input text, including empty and whitespace-only texts,
`get_intent` returns an element of the closed intent set, and when no
rule of the cascade matches it returns `unknown`. -/
theorem get_intent_total (s : Txt) :
    get_intent s ∈ closedIntentSet ∧
    (someRuleFires (pyStrip (pyLower s)) = false → get_intent s = .unknown) := by
  constructor
  · cases h : get_intent s <;> decide
  · intro h
    simp only [someRuleFires, Bool.or_eq_false_iff] at h
    obtain ⟨⟨⟨⟨⟨⟨⟨⟨⟨⟨⟨⟨h1, h2⟩, h3⟩, h4⟩, h5⟩, h6⟩, h7⟩, h8⟩, h9⟩, h10⟩, h11⟩, h12⟩, h13⟩ := h
    simp [get_intent, getIntentCore, h1, h2, h3, h4, h5, h6, h7, h8, h9, h10, h11, h12, h13]

/-- Closed-form instance of `get_intent_total` at a concrete input on
which no rule fires. -/
theorem get_intent_total_witness :
    get_intent (s2t "zzz") ∈ closedIntentSet ∧ get_intent (s2t "zzz") = .unknown :=
  ⟨(get_intent_total (s2t "zzz")).1, (get_intent_total (s2t "zzz")).2 (by decide)⟩

/-- C7: the resolver is case-insensitive — resolving the upper-cased or
lower-cased text gives the same intent as resolving the original. -/
theorem get_intent_case_insensitive (s : Txt) :
    get_intent (pyUpper s) = get_intent s ∧ get_intent (pyLower s) = get_intent s := by
  unfold get_intent
  rw [pyLower_pyUpper, pyLower_pyLower]
  exact ⟨rfl, rfl⟩

/-- C2: on the lower-cased trimmed form of the text, when neither name
rule matches, the thanks guard forces `thanks`; when additionally the
thanks guard is off, the help guard forces `help`; and the two pinned
examples hold. -/
theorem thanks_over_help_priority :
    (∀ s, nameIntroCond (pyStrip (pyLower s)) = false →
      nameQueryCond (pyStrip (pyLower s)) = false →
      thanksCond (pyStrip (pyLower s)) = true →
      get_intent s = .thanks) ∧
    (∀ s, nameIntroCond (pyStrip (pyLower s)) = false →
      nameQueryCond (pyStrip (pyLower s)) = false →
      thanksCond (pyStrip (pyLower s)) = false →
      helpCond (pyStrip (pyLower s)) = true →
      get_intent s = .help) ∧
    get_intent (s2t "thanks for your help") = .thanks ∧
    get_intent (s2t "I need help") = .help := by
  refine ⟨?_, ?_, by decide, by decide⟩
  · intro s h1 h2 h3
    simp [get_intent, getIntentCore, h1, h2, h3]
  · intro s h1 h2 h3 h4
    simp [get_intent, getIntentCore, h1, h2, h3, h4]

/-- Closed-form instance of `thanks_over_help_priority` on the two
pinned inputs. -/
theorem thanks_over_help_priority_witness :
    get_intent (s2t "thanks for your help") = .thanks ∧
    get_intent (s2t "I need help") = .help :=
  ⟨thanks_over_help_priority.1 (s2t "thanks for your help")
      (by decide) (by decide) (by decide),
   thanks_over_help_priority.2.1 (s2t "I need help")
      (by decide) (by decide) (by decide) (by decide)⟩

/-- C3: the two-turn booking flow — "I want to book a meeting" on a
fresh session sets `booking_started` to true and yields the scheduling
prompt; the follow-up "Tomorrow at 2pm" is overridden to `booking_time`,
stores the utterance verbatim under `booking_time`, sets
`booking_started` to false, and yields the confirmation reply. -/
theorem booking_two_turn_flow :
    (generate_response initState (s2t "I want to book a meeting")).1 = scheduleReply ∧
    ctxGet (generate_response initState
        (s2t "I want to book a meeting")).2.context (s2t "booking_started")
      = some (.flag true) ∧
    resolvedIntent (generate_response initState
        (s2t "I want to book a meeting")).2 (s2t "Tomorrow at 2pm")
      = .booking_time ∧
    (generate_response (generate_response initState
        (s2t "I want to book a meeting")).2 (s2t "Tomorrow at 2pm")).1
      = confirmReply ∧
    ctxGet (generate_response (generate_response initState
        (s2t "I want to book a meeting")).2 (s2t "Tomorrow at 2pm")).2.context
        (s2t "booking_time")
      = some (.txt (s2t "Tomorrow at 2pm")) ∧
    ctxGet (generate_response (generate_response initState
        (s2t "I want to book a meeting")).2 (s2t "Tomorrow at 2pm")).2.context
        (s2t "booking_started")
      = some (.flag false) := by
  decide

/-- C4: `extract_name` tries the four patterns in their listed order,
returns the first successful capture with its first letter capitalized,
returns nothing when no pattern matches, and maps "My name is Mira"
to "Mira". -/
theorem extract_name_first_match :
    (∀ s w, searchCapture patMyNameIs (pyLower s) = some w →
      extract_name s = some (capitalizeCp w)) ∧
    (∀ s w, searchCapture patMyNameIs (pyLower s) = none →
      searchCapture patIAm (pyLower s) = some w →
      extract_name s = some (capitalizeCp w)) ∧
    (∀ s w, searchCapture patMyNameIs (pyLower s) = none →
      searchCapture patIAm (pyLower s) = none →
      searchCapture patIm (pyLower s) = some w →
      extract_name s = some (capitalizeCp w)) ∧
    (∀ s w, searchCapture patMyNameIs (pyLower s) = none →
      searchCapture patIAm (pyLower s) = none →
      searchCapture patIm (pyLower s) = none →
      searchCapture patCallMe (pyLower s) = some w →
      extract_name s = some (capitalizeCp w)) ∧
    (∀ s, searchCapture patMyNameIs (pyLower s) = none →
      searchCapture patIAm (pyLower s) = none →
      searchCapture patIm (pyLower s) = none →
      searchCapture patCallMe (pyLower s) = none →
      extract_name s = none) ∧
    extract_name (s2t "My name is Mira") = some (s2t "Mira") := by
  refine ⟨?_, ?_, ?_, ?_, ?_, by decide⟩
  · intro s w h1
    simp [extract_name, firstCapture, namePatterns, h1]
  · intro s w h1 h2
    simp [extract_name, firstCapture, namePatterns, h1, h2]
  · intro s w h1 h2 h3
    simp [extract_name, firstCapture, namePatterns, h1, h2, h3]
  · intro s w h1 h2 h3 h4
    simp [extract_name, firstCapture, namePatterns, h1, h2, h3, h4]
  · intro s h1 h2 h3 h4
    simp [extract_name, firstCapture, namePatterns, h1, h2, h3, h4]

/-- Closed-form instances of `extract_name_first_match`: one concrete
input per pattern, and one with no match. -/
theorem extract_name_first_match_witness :
    extract_name (s2t "My name is Mira") = some (capitalizeCp (s2t "mira")) ∧
    extract_name (s2t "i am bob") = some (capitalizeCp (s2t "bob")) ∧
    extract_name (s2t "I" ++ apos :: s2t "m bob") = some (capitalizeCp (s2t "bob")) ∧
    extract_name (s2t "call me bob") = some (capitalizeCp (s2t "bob")) ∧
    extract_name (s2t "hello there") = none :=
  ⟨extract_name_first_match.1 _ _ (by decide),
   extract_name_first_match.2.1 _ _ (by decide) (by decide),
   extract_name_first_match.2.2.1 _ _ (by decide) (by decide) (by decide),
   extract_name_first_match.2.2.2.1 _ _ (by decide) (by decide) (by decide) (by decide),
   extract_name_first_match.2.2.2.2.1 _ (by decide) (by decide) (by decide) (by decide)⟩

lemma generate_response_history (st : BotState) (m : Txt) :
    (generate_response st m).2.conversation_history =
      st.conversation_history ++
        [⟨.user, m, resolvedIntent st m⟩,
         ⟨.assistant, (generate_response st m).1, resolvedIntent st m⟩] := rfl

lemma generate_response_context (st : BotState) (m : Txt) :
    (generate_response st m).2.context = (dispatch st m (resolvedIntent st m)).2 := rfl

lemma historyOk_append : ∀ (h : List Turn) (u a : Turn),
    u.role = .user → a.role = .assistant → u.intent = a.intent →
    historyOk h = true → historyOk (h ++ [u, a]) = true
  | [], u, a, hu, ha, hi, _ => by simp [historyOk, hu, ha, hi]
  | [_], _, _, _, _, _, hok => by simp [historyOk] at hok
  | x :: y :: rest, u, a, hu, ha, hi, hok => by
    simp only [historyOk, Bool.and_eq_true] at hok
    simp only [List.cons_append, historyOk, Bool.and_eq_true]
    exact ⟨⟨⟨hok.1.1.1, hok.1.1.2⟩, hok.1.2⟩,
      historyOk_append rest u a hu ha hi hok.2⟩

lemma processAll_historyOk : ∀ (msgs : List Txt) (st : BotState),
    historyOk st.conversation_history = true →
    historyOk ((msgs.foldl (fun st m => (generate_response st m).2) st).conversation_history) = true
  | [], _, h => h
  | m :: rest, st, h => by
    simp only [List.foldl_cons]
    refine processAll_historyOk rest _ ?_
    rw [generate_response_history]
    exact historyOk_append _ _ _ rfl rfl rfl h

lemma processAll_length : ∀ (msgs : List Txt) (st : BotState),
    ((msgs.foldl (fun st m => (generate_response st m).2) st).conversation_history).length
      = st.conversation_history.length + 2 * msgs.length
  | [], _ => by simp
  | m :: rest, st => by
    simp only [List.foldl_cons, processAll_length rest, generate_response_history,
      List.length_append, List.length_cons, List.length_nil]
    ring

/-- C5: after `N` processed utterances on a fresh session, the history
has length exactly `2 N`, and it decomposes into user/assistant pairs in
which the assistant record carries the intent of the preceding user
record (`historyOk`). -/
theorem history_invariant (msgs : List Txt) :
    (processAll msgs).conversation_history.length = 2 * msgs.length ∧
    historyOk (processAll msgs).conversation_history = true := by
  constructor
  · simpa [processAll, initState] using processAll_length msgs initState
  · exact processAll_historyOk msgs initState rfl

lemma ctxGet_ctxSet (c : Ctx) (k k2 : Txt) (v : CtxVal) :
    ctxGet (ctxSet c k v) k2 = if k = k2 then some v else ctxGet c k2 := by
  induction c with
  | nil => simp [ctxSet, ctxGet]
  | cons hd tl ih =>
    obtain ⟨k3, v3⟩ := hd
    by_cases h3 : k3 = k
    · subst h3
      simp only [ctxSet, if_pos rfl, ctxGet]
      by_cases h2 : k3 = k2
      · subst h2; simp
      · simp [ctxGet, h2]
    · simp only [ctxSet, if_neg h3, ctxGet]
      by_cases h2 : k3 = k2
      · subst h2
        have : ¬ k = k3 := fun h => h3 h.symm
        simp [this]
      · simp [h2, ih]

lemma dispatch_context_shape (st : BotState) (m : Txt) (i : Intent) :
    ∃ us : List (Txt × CtxVal), (∀ kv ∈ us, kv.1 ∈ allowedCtxKeys) ∧
      (dispatch st m i).2 = setMany st.context us := by
  unfold dispatch
  repeat' split
  · exact ⟨[(s2t "user_name", .txt _)], by simp [allowedCtxKeys], rfl⟩
  · exact ⟨[], by simp, rfl⟩
  · exact ⟨[], by simp, rfl⟩
  · exact ⟨[], by simp, rfl⟩
  · exact ⟨[(s2t "booking_time", .txt m), (s2t "booking_started", .flag false)],
      by simp [allowedCtxKeys], rfl⟩
  · exact ⟨[(s2t "booking_started", .flag true)], by simp [allowedCtxKeys], rfl⟩
  · exact ⟨[], by simp, rfl⟩
  · exact ⟨[], by simp, rfl⟩
  · exact ⟨[], by simp, rfl⟩

lemma ctxGet_setMany_ne : ∀ (us : List (Txt × CtxVal)) (c : Ctx) (k : Txt),
    ctxGet (setMany c us) k ≠ none ↔ ctxGet c k ≠ none ∨ k ∈ us.map Prod.fst
  | [], c, k => by simp [setMany]
  | kv :: rest, c, k => by
    simp only [setMany, List.foldl_cons, List.map_cons, List.mem_cons]
    rw [show (rest.foldl (fun c kv => ctxSet c kv.1 kv.2) (ctxSet c kv.1 kv.2))
        = setMany (ctxSet c kv.1 kv.2) rest from rfl]
    rw [ctxGet_setMany_ne rest]
    rw [ctxGet_ctxSet]
    by_cases h : kv.1 = k
    · simp [h]
    · have : ¬ k = kv.1 := fun hh => h hh.symm
      simp [h, this]

/-- C6: normal processing only ever writes the context at the keys
`user_name`, `booking_started`, `booking_time`; no context key and no
history record is removed by processing; and `reset` empties both the
context and the history. -/
theorem context_keys_invariant :
    (∀ (st : BotState) (m k : Txt), ctxGet st.context k ≠ none →
      ctxGet (generate_response st m).2.context k ≠ none) ∧
    (∀ (st : BotState) (m k : Txt), ctxGet (generate_response st m).2.context k ≠ none →
      ctxGet st.context k ≠ none ∨ k ∈ allowedCtxKeys) ∧
    (∀ (st : BotState) (m : Txt), ∃ t, (generate_response st m).2.conversation_history =
      st.conversation_history ++ t) ∧
    (∀ st : BotState, (reset st).context = [] ∧ (reset st).conversation_history = []) := by
  refine ⟨?_, ?_, ?_, fun _ => ⟨rfl, rfl⟩⟩
  · intro st m k h
    rw [generate_response_context]
    obtain ⟨us, _, hshape⟩ := dispatch_context_shape st m (resolvedIntent st m)
    rw [hshape, ctxGet_setMany_ne]
    exact Or.inl h
  · intro st m k h
    rw [generate_response_context] at h
    obtain ⟨us, hkeys, hshape⟩ := dispatch_context_shape st m (resolvedIntent st m)
    rw [hshape, ctxGet_setMany_ne] at h
    rcases h with h | h
    · exact Or.inl h
    · obtain ⟨kv, hkv, hfst⟩ := List.mem_map.mp h
      exact Or.inr (hfst ▸ hkeys kv hkv)
  · intro st m
    exact ⟨_, generate_response_history st m⟩

/-- Closed-form instance of `context_keys_invariant`: a pre-existing
key survives processing, and a key fresh after processing is one of the
three allowed keys. -/
theorem context_keys_invariant_witness :
    ctxGet (generate_response ⟨[], [(s2t "user_name", CtxVal.txt (s2t "Mira"))]⟩
        (s2t "hello")).2.context (s2t "user_name") ≠ none ∧
    (ctxGet (initState : BotState).context (s2t "booking_started") ≠ none ∨
      s2t "booking_started" ∈ allowedCtxKeys) :=
  ⟨context_keys_invariant.1 ⟨[], [(s2t "user_name", CtxVal.txt (s2t "Mira"))]⟩
      (s2t "hello") (s2t "user_name") (by decide),
   context_keys_invariant.2.1 initState (s2t "I want to book a meeting")
      (s2t "booking_started") (by decide)⟩

lemma responsesGet_ne_nil (i : Intent) : responsesGet i ≠ [] := by
  cases i <;> decide

lemma append_ne_nil_left {a b : Txt} (h : a ≠ []) : a ++ b ≠ [] := by
  cases a with
  | nil => exact absurd rfl h
  | cons x t => simp

/-- C8: for every state and every input text, including empty and
whitespace-only texts, `generate_response` returns a non-empty reply. -/
theorem generate_response_nonempty (st : BotState) (m : Txt) :
    (generate_response st m).1 ≠ [] := by
  have hr : (generate_response st m).1 = (dispatch st m (resolvedIntent st m)).1 := rfl
  rw [hr]
  unfold dispatch
  repeat' split
  all_goals dsimp only
  all_goals
    first
    | exact responsesGet_ne_nil _
    | ((repeat' apply append_ne_nil_left); decide)

/-- C9: `calculate_accuracy` errors exactly when the two sequences have
different lengths, returns `0.0` on two empty sequences, and otherwise
returns the fraction of agreeing positions, a value in `[0, 1]`. -/
theorem calculate_accuracy_spec :
    (∀ p g : List Txt, (∃ e, calculate_accuracy p g = .error e) ↔ p.length ≠ g.length) ∧
    calculate_accuracy [] [] = .ok 0 ∧
    (∀ (p g : List Txt) (q : ℚ), calculate_accuracy p g = .ok q →
      0 ≤ q ∧ q ≤ 1 ∧ (p ≠ [] → q = (countEq p g : ℚ) / (p.length : ℚ))) := by
  refine ⟨?_, rfl, ?_⟩
  · intro p g
    constructor
    · rintro ⟨e, he⟩
      by_contra hlen
      simp only [calculate_accuracy] at he
      rw [if_neg (fun hne => hne hlen)] at he
      by_cases hz : p.length = 0
      · rw [if_pos hz] at he; exact Except.noConfusion he
      · rw [if_neg hz] at he; exact Except.noConfusion he
    · intro hlen
      refine ⟨s2t "Predictions and ground truth must have same length", ?_⟩
      simp only [calculate_accuracy]
      rw [if_pos hlen]
  · intro p g q hq
    simp only [calculate_accuracy] at hq
    by_cases hlen : p.length ≠ g.length
    · rw [if_pos hlen] at hq; exact Except.noConfusion hq
    · rw [if_neg hlen] at hq
      by_cases hz : p.length = 0
      · rw [if_pos hz] at hq
        have hq0 : q = 0 := (Except.ok.inj hq).symm
        subst hq0
        exact ⟨le_refl 0, by norm_num,
          fun hp => absurd (List.length_eq_zero.mp hz) hp⟩
      · rw [if_neg hz] at hq
        have hqe : q = (countEq p g : ℚ) / (p.length : ℚ) := (Except.ok.inj hq).symm
        subst hqe
        have hcount : countEq p g ≤ p.length := by
          calc countEq p g ≤ (List.zip p g).length := List.countP_le_length _
          _ ≤ p.length := by rw [List.length_zip]; omega
        have hplen : (0 : ℚ) < (p.length : ℚ) := by
          exact_mod_cast Nat.pos_of_ne_zero hz
        refine ⟨div_nonneg (by positivity) (le_of_lt hplen), ?_, fun _ => rfl⟩
        rw [div_le_one hplen]
        exact_mod_cast hcount

/-- Closed-form instance of `calculate_accuracy_spec` at concrete
sequences of length two. -/
theorem calculate_accuracy_spec_witness :
    0 ≤ (countEq [s2t "a", s2t "b"] [s2t "a", s2t "c"] : ℚ)
        / (([s2t "a", s2t "b"] : List Txt).length : ℚ) ∧
    (countEq [s2t "a", s2t "b"] [s2t "a", s2t "c"] : ℚ)
        / (([s2t "a", s2t "b"] : List Txt).length : ℚ) ≤ 1 :=
  have hq : calculate_accuracy [s2t "a", s2t "b"] [s2t "a", s2t "c"]
      = .ok ((countEq [s2t "a", s2t "b"] [s2t "a", s2t "c"] : ℚ)
        / (([s2t "a", s2t "b"] : List Txt).length : ℚ)) := rfl
  ⟨(calculate_accuracy_spec.2.2 [s2t "a", s2t "b"] [s2t "a", s2t "c"] _ hq).1,
   (calculate_accuracy_spec.2.2 [s2t "a", s2t "b"] [s2t "a", s2t "c"] _ hq).2.1⟩

lemma zip_take_min : ∀ (p g : List Txt),
    List.zip (p.take (min p.length g.length)) (g.take (min p.length g.length))
      = List.zip p g
  | [], g => by simp
  | a :: p, [] => by simp
  | a :: p, b :: g => by
    have ih := zip_take_min p g
    simp only [List.length_cons, Nat.succ_min_succ, List.take_succ_cons,
      List.zip_cons_cons]
    rw [ih]

/-- C10: `get_confusion_matrix` and `calculate_precision_recall` accept
length-mismatched sequences without failing: each computes its result
over only the first `min` length pairs, ignoring the excess elements of
the longer sequence. -/
theorem metrics_truncate_to_min (p g : List Txt) (i : Txt) :
    get_confusion_matrix p g =
      get_confusion_matrix (p.take (min p.length g.length))
        (g.take (min p.length g.length)) ∧
    calculate_precision_recall p g i =
      calculate_precision_recall (p.take (min p.length g.length))
        (g.take (min p.length g.length)) i := by
  constructor
  · simp only [get_confusion_matrix, zip_take_min]
  · simp only [calculate_precision_recall, zip_take_min]

end Chatbot
